import Mathlib

/-!
Verification of the TCSS460 phase-2 HTTP service: the login flow
(src/routes/auth/login.ts) and the closed message router
(offset/cursor pagination, create, delete by name).

The handlers are shallowly embedded: request bodies and query strings
become explicit values, the Postgres pool becomes an explicit query
result passed to the handler, and an async handler that throws without
a surrounding try/catch is modelled as returning `none` (no HTTP
response is produced by the handler).
-/

namespace Phase2

/-! ## Validation utilities

`validationFunctions.isStringProvided` and
`validationFunctions.isNumberProvided` live in core/utilities, which is
not part of the provided sources; they are modelled from the spec. -/

/-- Modelled from the spec: `validationFunctions.isStringProvided` (core/utilities
is not among the sources). The spec requires parameters to be provided,
non-empty strings: a missing field or an empty string is not provided. -/
def isStringProvided : Option String → Bool
  | none => false
  | some s => !(s == "")

/-- A decimal numeric literal, as a client would send in a JSON body or a
query string: a sign, an integer part, and fraction digits (`fracNum`
over `fracDen = 10 ^ digits`). `"2.9"` is `⟨false, 2, 9, 10⟩`. -/
structure NumStr where
  neg : Bool
  ipart : Nat
  fracNum : Nat
  fracDen : Nat
  deriving DecidableEq, Repr

/-- The numeric value denoted by the literal. -/
def NumStr.value (n : NumStr) : ℚ :=
  (if n.neg then -1 else 1) * ((n.ipart : ℚ) + (n.fracNum : ℚ) / (n.fracDen : ℚ))

/-- JavaScript `parseInt` on a plain decimal literal: parse the optional
sign and the leading digits, ignore everything from the decimal point on. -/
def NumStr.parseInt (n : NumStr) : Int :=
  if n.neg then -(n.ipart : Int) else (n.ipart : Int)

/-- The priority field of a create request body: a numeric string, a
non-numeric string, or absent. -/
inductive PriVal where
  | num (n : NumStr)
  | nonNum (s : String)
  | missing
  deriving DecidableEq, Repr

/-- Modelled from the spec: `validationFunctions.isNumberProvided`
(core/utilities is not among the sources). The spec requires a priority
that is numeric; a non-numeric or missing value is not provided. -/
def isNumberProvided : PriVal → Bool
  | .num _ => true
  | _ => false

/-- `parseInt(priority)` as applied by the create route's second
middleware; on a non-numeric or missing value the range test cannot
succeed, so its value there is irrelevant — we use 0 (JS would give NaN,
which fails both comparisons). -/
def PriVal.parseInt : PriVal → Int
  | .num n => n.parseInt
  | _ => 0

/-! ## Login (src/routes/auth/login.ts) -/

/-- One row of the login lookup query: Account_Credential joined to
Account on account_id, selecting salted_hash, salt, account_id, email,
firstname, lastname, phone, username, account_role. -/
structure CredAccountRow where
  salted_hash : String
  salt : String
  account_id : Nat
  email : String
  firstname : String
  lastname : String
  phone : String
  username : String
  account_role : String
  deriving DecidableEq, Repr

/-- The joined credential/account table; the login query's WHERE clause
filters it by email. -/
def loginLookup (db : List CredAccountRow) (email : String) : List CredAccountRow :=
  db.filter (fun r => r.email == email)

/-- The JWT minted by `jwt.sign(payload, secret, \x7bexpiresIn: '14 days'\x7d)`:
the payload claims (keys name, role, id), the issued-at time, the expiry
(issued-at plus 14 days in seconds), and the signing secret standing in
for the signature. -/
structure Token where
  name : String
  role : String
  id : Nat
  iat : Nat
  exp : Nat
  secret : String
  deriving DecidableEq, Repr

/-- Fourteen days in seconds, the `expiresIn: '14 days'` option. -/
def fourteenDays : Nat := 14 * 24 * 60 * 60

/-- jwt.sign with the '14 days' expiry option. -/
def mkToken (name role : String) (id : Nat) (secret : String) (now : Nat) : Token :=
  { name := name, role := role, id := id, iat := now, exp := now + fourteenDays, secret := secret }

/-- The user object of a 200 login response. -/
structure UserObj where
  id : Nat
  email : String
  name : String
  role : String
  deriving DecidableEq, Repr

/-- The HTTP response of the login route. -/
inductive LoginResult where
  | res400 (message : String)
  | res500 (message : String)
  | res200 (accessToken : Token) (user : UserObj)
  deriving DecidableEq, Repr

/-- The body of the second login handler, from the resolved lookup rows on:
rowCount 0 gives 400 Invalid Credentials, rowCount above 1 gives the
generic 500, otherwise the provided password is salted-hashed with the
stored salt and compared to the stored salted hash; on a match a token is
signed and the user object is sent — with the role field hardcoded to
the string Admin, as in the source. -/
def loginCore (gHash : String → String → String) (secret : String) (now : Nat)
    (password : String) : List CredAccountRow → LoginResult
  | [] => .res400 "Invalid Credentials"
  | [row] =>
      if row.salted_hash == gHash password row.salt then
        .res200 (mkToken row.firstname row.account_role row.account_id secret now)
          { id := row.account_id, email := row.email, name := row.firstname, role := "Admin" }
      else
        .res400 "Invalid Credentials"
  | _ => .res500 "server error - contact support"

/-- The full login route: the first middleware checks that email and
password are provided non-empty strings, then the second queries the
store and runs `loginCore`. -/
def login (gHash : String → String → String) (secret : String) (now : Nat)
    (db : List CredAccountRow) (email? password? : Option String) : LoginResult :=
  if isStringProvided email? && isStringProvided password? then
    loginCore gHash secret now (password?.getD "") (loginLookup db (email?.getD ""))
  else
    .res400 "Missing required information"

/-- The login route when the pool.query promise is taken as an explicit
outcome: a rejected query is caught by the `.catch` and answered with the
generic 500 message. -/
def loginWithStore (gHash : String → String → String) (secret : String) (now : Nat)
    (queryRes : Except Unit (List CredAccountRow)) (password : String) : LoginResult :=
  match queryRes with
  | .error _ => .res500 "server error - contact support"
  | .ok rows => loginCore gHash secret now password rows

/-! ## The Demo table and the format helper (closed_message router) -/

/-- One row of the Demo table, as returned by `RETURNING *` or by the
cursor page query: the auto-increment DemoID and the three public
columns. The priority column is kept as an integer. -/
structure DemoRow where
  demoid : Nat
  name : String
  message : String
  priority : Int
  deriving DecidableEq, Repr

/-- The table is ordered by ascending DemoID, ids unique (auto-increment,
never reused). -/
def SortedById (db : List DemoRow) : Prop :=
  db.Chain' (fun a b => a.demoid < b.demoid)

/-- The display string built by `format`:
"\x7bpriority\x7d - [name] says: message". -/
def fmtString (priority : Int) (name message : String) : String :=
  "\x7b" ++ toString priority ++ "\x7d - [" ++ name ++ "] says: " ++ message

/-- A cursor or offset pagination entry: `format` applied to a row
carrying only name, message and priority (the offset query selects only
those; the cursor route strips demoid before formatting). -/
structure Entry where
  name : String
  message : String
  priority : Int
  formatted : String
  deriving DecidableEq, Repr

/-- A create-response entry: `format` spreads the full `RETURNING *` row,
so the internal demoid stays in the object next to the derived field. -/
structure CreatedEntry where
  demoid : Nat
  name : String
  message : String
  priority : Int
  formatted : String
  deriving DecidableEq, Repr

/-- The cursor route's entry mapping: `(\x7bdemoid, ...rest\x7d) => rest`
followed by `format`. -/
def cursorEntryOf (r : DemoRow) : Entry :=
  { name := r.name, message := r.message, priority := r.priority,
    formatted := fmtString r.priority r.name r.message }

/-- The create route's entry: `format(result.rows[0])` on the full row. -/
def createEntryOf (r : DemoRow) : CreatedEntry :=
  { demoid := r.demoid, name := r.name, message := r.message, priority := r.priority,
    formatted := fmtString r.priority r.name r.message }

/-! ## Offset pagination (GET /offset) -/

/-- The effective limit: a provided numeric limit strictly above 0 is
used, anything else falls back to the default 10. A missing or
non-numeric query value is `none`. -/
def effLimit : Option Int → Nat
  | some l => if 0 < l then l.toNat else 10
  | none => 10

/-- The effective offset: a provided numeric offset of at least 0 is
used, anything else falls back to 0. -/
def effOffset : Option Int → Nat
  | some o => if 0 ≤ o then o.toNat else 0
  | none => 0

/-- The offset page query: ORDER BY DemoID, LIMIT, OFFSET over the
(sorted) table. -/
def sqlOffsetPage (db : List DemoRow) (limit offset : Nat) : List DemoRow :=
  (db.drop offset).take limit

/-- The offset route's 200 body. -/
structure OffsetResponse where
  entries : List Entry
  totalRecords : Nat
  limit : Nat
  offset : Nat
  nextPage : Nat
  deriving DecidableEq, Repr

/-- The offset route on resolved queries: entries are the page rows
through `format`, totalRecords the count query's result, and
nextPage is `limit + offset`, computed arithmetically. -/
def offsetPage (db : List DemoRow) (limitRaw offsetRaw : Option Int) : OffsetResponse :=
  { entries := (sqlOffsetPage db (effLimit limitRaw) (effOffset offsetRaw)).map cursorEntryOf
    totalRecords := db.length
    limit := effLimit limitRaw
    offset := effOffset offsetRaw
    nextPage := effLimit limitRaw + effOffset offsetRaw }

/-- The offset route with the two pool.query promises as explicit
outcomes. The handler has no try/catch: a rejected query makes the
awaiting async handler throw, so no response is produced (`none`). -/
def offsetHandler (pageRes : Except Unit (List DemoRow)) (countRes : Except Unit Nat)
    (limitRaw offsetRaw : Option Int) : Option OffsetResponse :=
  match pageRes, countRes with
  | .ok rows, .ok count =>
      some { entries := rows.map cursorEntryOf
             totalRecords := count
             limit := effLimit limitRaw
             offset := effOffset offsetRaw
             nextPage := effLimit limitRaw + effOffset offsetRaw }
  | _, _ => none

/-! ## Cursor pagination (GET /cursor) -/

/-- The effective cursor: a provided numeric cursor of at least 0 is
used, anything else falls back to 0 (ids start at 1, so 0 is a valid
starting cursor). -/
def effCursor : Option Int → Nat
  | some c => if 0 ≤ c then c.toNat else 0
  | none => 0

/-- The cursor page query: WHERE DemoID > cursor, ORDER BY DemoID,
LIMIT, over the (sorted) table. -/
def sqlCursorPage (db : List DemoRow) (limit cursor : Nat) : List DemoRow :=
  (db.filter (fun r => cursor < r.demoid)).take limit

/-- JavaScript `Array.prototype.reduce` with no initial value, with the
callback `(max, id) => (id > max ? id : max)`: on an empty array it
throws a TypeError, modelled as `none`. -/
def jsReduceMax : List Nat → Option Nat
  | [] => none
  | x :: xs => some (xs.foldl (fun max id => if id > max then id else max) x)

/-- The cursor route's 200 body. -/
structure CursorResponse where
  entries : List Entry
  totalRecords : Nat
  limit : Nat
  cursor : Nat
  deriving DecidableEq, Repr

/-- The cursor route with the two pool.query promises as explicit
outcomes. A rejected query escapes uncaught (`none`); the returned
cursor is the reduce over the page's demoids, which throws on an empty
page (`none` again: the TypeError also escapes uncaught). -/
def cursorHandler (pageRes : Except Unit (List DemoRow)) (countRes : Except Unit Nat)
    (limitRaw _cursorRaw : Option Int) : Option CursorResponse :=
  match pageRes, countRes with
  | .ok rows, .ok count =>
      match jsReduceMax (rows.map (fun r => r.demoid)) with
      | some c =>
          some { entries := rows.map cursorEntryOf
                 totalRecords := count
                 limit := effLimit limitRaw
                 cursor := c }
      | none => none
  | _, _ => none

/-- The cursor route on a live table: both queries resolve. -/
def cursorPage (db : List DemoRow) (limitRaw cursorRaw : Option Int) : Option CursorResponse :=
  cursorHandler (.ok (sqlCursorPage db (effLimit limitRaw) (effCursor cursorRaw)))
    (.ok db.length) limitRaw cursorRaw

/-! ## Create (POST /) -/

/-- A create request body. -/
structure CreateBody where
  name : Option String
  message : Option String
  priority : PriVal
  deriving DecidableEq, Repr

/-- The values array handed to the INSERT query: the raw body fields,
the priority untouched. -/
def insertValuesOf (body : CreateBody) : String × String × PriVal :=
  (body.name.getD "", body.message.getD "", body.priority)

/-- The INSERT query's outcome: the single `RETURNING *` row, or a
rejection carrying the Postgres error detail (if any). -/
inductive InsertOutcome where
  | inserted (row : DemoRow)
  | pgError (detail : Option String)
  deriving DecidableEq, Repr

/-- The HTTP response of the create route. -/
inductive CreateResult where
  | res400 (message : String)
  | res500 (message : String)
  | res201 (entry : CreatedEntry)
  deriving DecidableEq, Repr

/-- The create route's final handler body: the inserted row goes through
`format` into a 201; a rejection whose detail ends in "exists." is the
uniqueness conflict (400 Name exists), anything else the generic 500. -/
def handleInsertOutcome : InsertOutcome → CreateResult
  | .inserted row => .res201 (createEntryOf row)
  | .pgError detail =>
      match detail with
      | some d => if d.endsWith "exists." then .res400 "Name exists"
                  else .res500 "server error - contact support"
      | none => .res500 "server error - contact support"

/-- The create route's middleware chain and handler: the first
middleware requires name and message to be provided strings, the second
requires a provided numeric priority whose parseInt lies in [1,3], and
only then is the store touched, with the raw values. -/
def createRoute (insert : String × String × PriVal → InsertOutcome)
    (body : CreateBody) : CreateResult :=
  if isStringProvided body.name && isStringProvided body.message then
    if isNumberProvided body.priority && 1 ≤ body.priority.parseInt
        && body.priority.parseInt ≤ 3 then
      handleInsertOutcome (insert (insertValuesOf body))
    else
      .res400 "Invalid or missing Priority - please refer to documentation"
  else
    .res400 "Missing required information - please refer to documentation"

/-! ## Delete by name (DELETE /:name) -/

/-- The DELETE query's outcome: the `RETURNING *` rows (rowCount is
their length), or a rejection. -/
inductive DeleteOutcome where
  | ok (rows : List DemoRow)
  | fault
  deriving DecidableEq, Repr

/-- The HTTP response of the delete route. -/
inductive DeleteResult where
  | res200 (entry : String)
  | res404 (message : String)
  | res500 (message : String)
  deriving DecidableEq, Repr

/-- The delete route: a rowCount of exactly 1 answers with the
"Deleted: " confirmation built from the deleted row; any other rowCount
(zero included) answers 404 Name not found; a rejected query is caught
and answered with the generic 500. -/
def deleteRoute : DeleteOutcome → DeleteResult
  | .fault => .res500 "server error - contact support"
  | .ok [row] => .res200 ("Deleted: " ++ fmtString row.priority row.name row.message)
  | .ok _ => .res404 "Name not found"

/-! ## Theorems: login -/

/-- C2: on a valid credential pair the token claims (name, role, id) and
the expiry 14 days after issuance match the claim, but the user object's
role is the hardcoded string Admin even though the stored account_role
is User — contradicting the route's own apidoc, which documents user.role
as the role associated with the email. Evaluation at the failing input. -/
theorem login_user_role_hardcoded :
    login (fun p s => p ++ s) "sec" 1000
      [{ salted_hash := "pwsalt", salt := "salt", account_id := 7, email := "ann@uw.edu",
         firstname := "Ann", lastname := "Lee", phone := "555", username := "ann",
         account_role := "User" }]
      (some "ann@uw.edu") (some "pw")
    = .res200
        { name := "Ann", role := "User", id := 7, iat := 1000, exp := 1000 + fourteenDays,
          secret := "sec" }
        { id := 7, email := "ann@uw.edu", name := "Ann", role := "Admin" } := by
  rfl

/-- C6: a login with an unknown email and a login with a known email but
a wrong password produce the identical 400 Invalid Credentials response;
no observable difference enables user enumeration. -/
theorem login_indistinguishable_failures
    (gHash : String → String → String) (secret : String) (now : Nat)
    (db : List CredAccountRow) (e1 p1 e2 p2 : String) (row : CredAccountRow)
    (he1 : e1 ≠ "") (hp1 : p1 ≠ "") (he2 : e2 ≠ "") (hp2 : p2 ≠ "")
    (hunknown : loginLookup db e1 = [])
    (hknown : loginLookup db e2 = [row])
    (hmismatch : row.salted_hash ≠ gHash p2 row.salt) :
    login gHash secret now db (some e1) (some p1) = .res400 "Invalid Credentials" ∧
    login gHash secret now db (some e2) (some p2) = .res400 "Invalid Credentials" := by
  constructor
  · simp [login, isStringProvided, he1, hp1, hunknown, loginCore]
  · simp [login, isStringProvided, he2, hp2, hknown, loginCore, hmismatch]

/-- Witness for C6 at a concrete store: the email who@x is unknown, the
email ann@uw.edu exists but the password bad hashes to badsalt, not the
stored pwsalt; both logins answer 400 Invalid Credentials. -/
theorem login_indistinguishable_failures_witness :
    login (fun p s => p ++ s) "sec" 5
      [{ salted_hash := "pwsalt", salt := "salt", account_id := 7, email := "ann@uw.edu",
         firstname := "Ann", lastname := "Lee", phone := "555", username := "ann",
         account_role := "User" }]
      (some "who@x") (some "pw") = .res400 "Invalid Credentials" ∧
    login (fun p s => p ++ s) "sec" 5
      [{ salted_hash := "pwsalt", salt := "salt", account_id := 7, email := "ann@uw.edu",
         firstname := "Ann", lastname := "Lee", phone := "555", username := "ann",
         account_role := "User" }]
      (some "ann@uw.edu") (some "bad") = .res400 "Invalid Credentials" :=
  login_indistinguishable_failures (fun p s => p ++ s) "sec" 5
    [{ salted_hash := "pwsalt", salt := "salt", account_id := 7, email := "ann@uw.edu",
       firstname := "Ann", lastname := "Lee", phone := "555", username := "ann",
       account_role := "User" }]
    "who@x" "pw" "ann@uw.edu" "bad"
    { salted_hash := "pwsalt", salt := "salt", account_id := 7, email := "ann@uw.edu",
      firstname := "Ann", lastname := "Lee", phone := "555", username := "ann",
      account_role := "User" }
    (by decide) (by decide) (by decide) (by decide) (by rfl) (by rfl) (by decide)

/-- C8: with email and password provided, a lookup resolving to zero rows
answers 400 Invalid Credentials and a lookup resolving to two or more
rows answers the generic 500; both conclusions hold for every hash
function, so neither path reaches hash verification or token issuance. -/
theorem login_row_count_guard
    (gHash : String → String → String) (secret : String) (now : Nat)
    (db : List CredAccountRow) (e1 e2 p : String)
    (r1 r2 : CredAccountRow) (rest : List CredAccountRow)
    (he1 : e1 ≠ "") (he2 : e2 ≠ "") (hp : p ≠ "")
    (hzero : loginLookup db e1 = [])
    (hmulti : loginLookup db e2 = r1 :: r2 :: rest) :
    login gHash secret now db (some e1) (some p) = .res400 "Invalid Credentials" ∧
    login gHash secret now db (some e2) (some p) = .res500 "server error - contact support" := by
  constructor
  · simp [login, isStringProvided, he1, hp, hzero, loginCore]
  · simp [login, isStringProvided, he2, hp, hmulti, loginCore]

/-- Witness for C8 at a concrete store holding two credential rows for
the same email dup@x, violating the one-credential-per-account
invariant, and no row for who@x. -/
theorem login_row_count_guard_witness :
    login (fun p s => p ++ s) "sec" 5
      [{ salted_hash := "h1", salt := "s1", account_id := 1, email := "dup@x",
         firstname := "A", lastname := "B", phone := "1", username := "a",
         account_role := "User" },
       { salted_hash := "h2", salt := "s2", account_id := 2, email := "dup@x",
         firstname := "C", lastname := "D", phone := "2", username := "c",
         account_role := "User" }]
      (some "who@x") (some "pw") = .res400 "Invalid Credentials" ∧
    login (fun p s => p ++ s) "sec" 5
      [{ salted_hash := "h1", salt := "s1", account_id := 1, email := "dup@x",
         firstname := "A", lastname := "B", phone := "1", username := "a",
         account_role := "User" },
       { salted_hash := "h2", salt := "s2", account_id := 2, email := "dup@x",
         firstname := "C", lastname := "D", phone := "2", username := "c",
         account_role := "User" }]
      (some "dup@x") (some "pw") = .res500 "server error - contact support" :=
  login_row_count_guard (fun p s => p ++ s) "sec" 5
    [{ salted_hash := "h1", salt := "s1", account_id := 1, email := "dup@x",
       firstname := "A", lastname := "B", phone := "1", username := "a",
       account_role := "User" },
     { salted_hash := "h2", salt := "s2", account_id := 2, email := "dup@x",
       firstname := "C", lastname := "D", phone := "2", username := "c",
       account_role := "User" }]
    "who@x" "dup@x" "pw"
    { salted_hash := "h1", salt := "s1", account_id := 1, email := "dup@x",
      firstname := "A", lastname := "B", phone := "1", username := "a",
      account_role := "User" }
    { salted_hash := "h2", salt := "s2", account_id := 2, email := "dup@x",
      firstname := "C", lastname := "D", phone := "2", username := "c",
      account_role := "User" }
    [] (by decide) (by decide) (by decide) (by rfl) (by rfl)

/-! ## Theorems: pagination -/

/-- C1: on a table with rows 1..3 and no cursor the returned cursor is
the maximum id 3, but a request whose valid cursor 5 lies beyond every id
selects an empty page and the reduce over the empty demoid array throws,
so the handler produces no response instead of returning the input
cursor unchanged. Evaluation of the code at the failing input. -/
theorem cursor_reduce_faults_on_empty_page :
    (cursorPage [⟨1, "a", "m1", 1⟩, ⟨2, "b", "m2", 2⟩, ⟨3, "c", "m3", 3⟩] none none).map
        (fun resp => resp.cursor) = some 3 ∧
    cursorPage [⟨1, "a", "m1", 1⟩, ⟨2, "b", "m2", 2⟩, ⟨3, "c", "m3", 3⟩] none (some 5)
      = none := by
  exact ⟨rfl, rfl⟩

/-- Counterexample to C3 as stated: a rejected page query on the offset
and cursor routes is not caught anywhere, so no 500 (or any) response is
produced by the handler — the rejection escapes. -/
theorem pagination_fault_uncaught :
    offsetHandler (.error ()) (.ok 0) none none = none ∧
    cursorHandler (.error ()) (.ok 0) none none = none :=
  ⟨rfl, rfl⟩

/-- C3 amended: login, create and delete catch store rejections and
answer fixed strings that never echo internal detail — the generic 500
everywhere, except that a create rejection whose detail ends in
"exists." is answered 400 Name exists; the offset and cursor routes have
no try/catch, so a rejected query yields no response at all. -/
theorem store_faults_translated :
    (∀ (gHash : String → String → String) (secret : String) (now : Nat) (p : String),
      loginWithStore gHash secret now (.error ()) p
        = .res500 "server error - contact support") ∧
    (∀ d : Option String,
      handleInsertOutcome (.pgError d) = .res400 "Name exists" ∨
      handleInsertOutcome (.pgError d) = .res500 "server error - contact support") ∧
    deleteRoute .fault = .res500 "server error - contact support" ∧
    (∀ (c : Except Unit Nat) (lr o : Option Int), offsetHandler (.error ()) c lr o = none) ∧
    (∀ (c : Except Unit Nat) (lr cr : Option Int), cursorHandler (.error ()) c lr cr = none) := by
  refine ⟨fun _ _ _ _ => rfl, fun d => ?_, rfl, fun _ _ _ => rfl, fun _ _ _ => rfl⟩
  cases d with
  | none => exact .inr rfl
  | some s =>
      by_cases h : s.endsWith "exists." = true
      · exact .inl (by simp [handleInsertOutcome, h])
      · exact .inr (by simp [handleInsertOutcome, h])

/-- C5: the offset response's nextPage is always its limit plus its
offset, with no clamping to totalRecords, and an offset at or beyond the
record count yields an empty entry list rather than an error. -/
theorem offset_next_page_unclamped (db : List DemoRow) (limitRaw offsetRaw : Option Int) :
    (offsetPage db limitRaw offsetRaw).nextPage
      = (offsetPage db limitRaw offsetRaw).limit + (offsetPage db limitRaw offsetRaw).offset ∧
    ((offsetPage db limitRaw offsetRaw).totalRecords ≤ (offsetPage db limitRaw offsetRaw).offset →
      (offsetPage db limitRaw offsetRaw).entries = []) := by
  refine ⟨rfl, fun h => ?_⟩
  simp only [offsetPage] at h ⊢
  simp [sqlOffsetPage, List.drop_eq_nil_of_le h]

/-- Witness for C5: one stored row, default limit, offset 5 beyond the
data: nextPage is 15 (greater than totalRecords 1) and the entry list is
empty. -/
theorem offset_next_page_unclamped_witness :
    (offsetPage [⟨1, "A", "m", 1⟩] none (some 5)).nextPage = 15 ∧
    (offsetPage [⟨1, "A", "m", 1⟩] none (some 5)).entries = [] :=
  ⟨rfl, (offset_next_page_unclamped [⟨1, "A", "m", 1⟩] none (some 5)).2 (by decide)⟩

/-! ## Theorems: create and delete -/

/-- Counterexample to C4 as stated: a delete affecting two rows is
answered 404 Name not found, not an IntegrityFault server error. -/
theorem delete_two_rows_not_server_error :
    deleteRoute (.ok [⟨1, "A", "m", 1⟩, ⟨2, "A", "m", 2⟩]) = .res404 "Name not found" :=
  rfl

/-- C4 amended: zero rows affected answers 404 Name not found; exactly
one row answers the "Deleted: " confirmation built from the deleted row;
two or more rows do not succeed, but are answered with the same 404, not
a 500 IntegrityFault. -/
theorem delete_rowcount_cases (rows : List DemoRow) (r : DemoRow) (hlen : 2 ≤ rows.length) :
    deleteRoute (.ok []) = .res404 "Name not found" ∧
    deleteRoute (.ok [r]) = .res200 ("Deleted: " ++ fmtString r.priority r.name r.message) ∧
    deleteRoute (.ok rows) = .res404 "Name not found" := by
  refine ⟨rfl, rfl, ?_⟩
  cases rows with
  | nil => simp at hlen
  | cons a tail =>
      cases tail with
      | nil => simp at hlen
      | cons b rest => rfl

/-- Witness for C4 at concrete row sets of size 0, 1 and 2. -/
theorem delete_rowcount_cases_witness :
    deleteRoute (.ok []) = .res404 "Name not found" ∧
    deleteRoute (.ok [⟨1, "A", "m", 2⟩])
      = .res200 ("Deleted: " ++ fmtString 2 "A" "m") ∧
    deleteRoute (.ok [⟨1, "A", "m", 2⟩, ⟨2, "B", "m2", 3⟩]) = .res404 "Name not found" :=
  delete_rowcount_cases [⟨1, "A", "m", 2⟩, ⟨2, "B", "m2", 3⟩] ⟨1, "A", "m", 2⟩ (by decide)

/-- C7: a body missing name or message is answered with the Missing
message — even when its priority is also invalid, showing presence is
checked before range — and a body with both strings provided but a
non-numeric or out-of-range priority is answered with the Priority
message; both verdicts are identical under any store, so no store access
happens before validation passes. -/
theorem create_validation_order
    (insert insert2 : String × String × PriVal → InsertOutcome) (body1 body2 : CreateBody)
    (h1 : (isStringProvided body1.name && isStringProvided body1.message) = false)
    (h2 : (isStringProvided body2.name && isStringProvided body2.message) = true)
    (h3 : (isNumberProvided body2.priority && 1 ≤ body2.priority.parseInt
            && body2.priority.parseInt ≤ 3) = false) :
    createRoute insert body1
      = .res400 "Missing required information - please refer to documentation" ∧
    createRoute insert body2
      = .res400 "Invalid or missing Priority - please refer to documentation" ∧
    createRoute insert body1 = createRoute insert2 body1 ∧
    createRoute insert body2 = createRoute insert2 body2 := by
  refine ⟨?_, ?_, ?_, ?_⟩ <;> simp [createRoute, h1, h2, h3]

/-- Witness for C7: a body with no name and a non-numeric priority gets
the Missing message; a complete body with priority "abc" gets the
Priority message; both under two different stores. -/
theorem create_validation_order_witness :
    createRoute (fun _ => .pgError none) ⟨none, some "hello", .nonNum "zzz"⟩
      = .res400 "Missing required information - please refer to documentation" ∧
    createRoute (fun _ => .pgError none) ⟨some "A", some "hi", .nonNum "abc"⟩
      = .res400 "Invalid or missing Priority - please refer to documentation" ∧
    createRoute (fun _ => .pgError none) ⟨none, some "hello", .nonNum "zzz"⟩
      = createRoute (fun _ => .inserted ⟨1, "A", "hi", 2⟩) ⟨none, some "hello", .nonNum "zzz"⟩ ∧
    createRoute (fun _ => .pgError none) ⟨some "A", some "hi", .nonNum "abc"⟩
      = createRoute (fun _ => .inserted ⟨1, "A", "hi", 2⟩) ⟨some "A", some "hi", .nonNum "abc"⟩ :=
  create_validation_order (fun _ => .pgError none) (fun _ => .inserted ⟨1, "A", "hi", 2⟩)
    ⟨none, some "hello", .nonNum "zzz"⟩ ⟨some "A", some "hi", .nonNum "abc"⟩
    (by decide) (by decide) (by decide)

/-- C9: the 201 entry of a successful insert is the full returned row
spread through the formatter, demoid included; the cursor route's entry
for the same row is the demoid-free record — the Entry shape carries no
id field at all. -/
theorem create_entry_keeps_demoid (r : DemoRow) :
    handleInsertOutcome (.inserted r)
      = .res201 { demoid := r.demoid, name := r.name, message := r.message,
                  priority := r.priority,
                  formatted := fmtString r.priority r.name r.message } ∧
    cursorEntryOf r
      = { name := r.name, message := r.message, priority := r.priority,
          formatted := fmtString r.priority r.name r.message } :=
  ⟨rfl, rfl⟩

/-- C10: for a numeric-string priority whose parseInt truncation lies in
[1,3] (the fractional digits are never consulted), validation passes and
the INSERT receives the raw body values, the priority literal untouched,
not its truncation. -/
theorem create_priority_truncated_check_raw_insert
    (insert : String × String × PriVal → InsertOutcome) (name msg : String) (n : NumStr)
    (hn : name ≠ "") (hm : msg ≠ "")
    (h1 : 1 ≤ n.parseInt) (h3 : n.parseInt ≤ 3) :
    createRoute insert ⟨some name, some msg, .num n⟩
      = handleInsertOutcome (insert (name, msg, .num n)) := by
  simp [createRoute, isStringProvided, isNumberProvided, PriVal.parseInt, hn, hm, h1, h3,
    insertValuesOf]

/-- Witness for C10 at the literal 2.9: parseInt gives 2, inside [1,3],
so the check passes and the store receives the 2.9 literal, whose value
29/10 is not the truncation 2. -/
theorem create_priority_truncated_check_raw_insert_witness :
    createRoute (fun _ => .pgError none) ⟨some "A", some "hi", .num ⟨false, 2, 9, 10⟩⟩
      = handleInsertOutcome ((fun _ => InsertOutcome.pgError none)
          ("A", "hi", PriVal.num ⟨false, 2, 9, 10⟩)) ∧
    NumStr.parseInt ⟨false, 2, 9, 10⟩ = 2 ∧
    NumStr.value ⟨false, 2, 9, 10⟩ = 29 / 10 :=
  ⟨create_priority_truncated_check_raw_insert (fun _ => .pgError none) "A" "hi"
      ⟨false, 2, 9, 10⟩ (by decide) (by decide) (by decide) (by decide),
    by decide,
    by norm_num [NumStr.value]⟩

end Phase2
